import Mathlib

/-!
Shallow embedding of the scan-workflow and credential-wizard core of the
neo-dspm-hub console (src/pages/Dashboard.tsx and
src/components/UploadModal.tsx), together with theorems settling the
specification claims about it.

The Dashboard component keeps six pieces of React state relevant to the scan
workflow (`isScanning`, `scanCompleted`, `isScanExpanded`, `scanStep`,
`scanFormData`, `scanResults`); the persistence adapter writes a four-field
record to localStorage under a fixed key.  Network calls, toasts and
persistence writes are modelled as an explicit, ordered effect trace, and the
eventual fetch resolution as a separate callback function, mirroring the
promise chain in the source.
-/

namespace NeoDspm

/-- JS `String.prototype.trim`: strips whitespace from both ends.  Written
over the character list so that ground instances reduce in the kernel. -/
def jsTrim (s : String) : String :=
  String.mk (((s.data.dropWhile Char.isWhitespace).reverse.dropWhile
    Char.isWhitespace).reverse)

/-- JS `String.prototype.toUpperCase`, written over the character list. -/
def jsToUpper (s : String) : String :=
  String.mk (s.data.map Char.toUpper)

/-- Toast notification as issued through the `toast` hook: title, description
and whether the `destructive` variant was used. -/
structure Toast where
  title : String
  description : String
  destructive : Bool
deriving DecidableEq, Repr

/-- The three cURL probe strings of the scan form (`scanFormData` in
Dashboard.tsx). -/
structure ScanFormData where
  bearerTokenCurl : String
  scanTriggerCurl : String
  clientResultCurl : String
deriving DecidableEq, Repr

/-- The record `saveScanState` serialises to localStorage: exactly the four
fields passed at every call site in Dashboard.tsx.  Note that `scanResults`
and `scanStep` are not part of it. -/
structure PersistedScanState where
  isScanning : Bool
  scanCompleted : Bool
  isScanExpanded : Bool
  scanFormData : ScanFormData
deriving DecidableEq, Repr

/-- Contents of the durable client-side store under the fixed key
`dashboardScanState`: absent, present-but-unparseable, or a parseable
serialised record. -/
inductive StoreContent where
  | empty : StoreContent
  | corrupt : StoreContent
  | valid : PersistedScanState → StoreContent
deriving DecidableEq, Repr

/-- Persistence adapter `saveScanState`: overwrites the record under the
fixed key. -/
def saveScanState (_store : StoreContent) (r : PersistedScanState) : StoreContent :=
  StoreContent.valid r

/-- Persistence adapter `loadScanState`: returns the parsed record, or `none`
when the key is absent or parsing throws (the try/catch in the source). -/
def loadScanState : StoreContent → Option PersistedScanState
  | StoreContent.empty => none
  | StoreContent.corrupt => none
  | StoreContent.valid r => some r

/-- Persistence adapter `clearScanState`: removes the record. -/
def clearScanState (_store : StoreContent) : StoreContent :=
  StoreContent.empty

/-- In-memory Dashboard state relevant to the scan workflow (the `useState`
hooks of Dashboard.tsx). -/
structure DashboardState where
  isScanning : Bool
  scanCompleted : Bool
  isScanExpanded : Bool
  scanStep : Nat
  scanFormData : ScanFormData
  scanResults : Option String
deriving DecidableEq, Repr

/-- Initial `useState` values of the Dashboard component. -/
def initialDashboardState : DashboardState :=
  { isScanning := false
    scanCompleted := false
    isScanExpanded := false
    scanStep := 1
    scanFormData := { bearerTokenCurl := "", scanTriggerCurl := "", clientResultCurl := "" }
    scanResults := none }

/-- The restore `useEffect` run on mount: reads the saved record and, when one
parses, copies its four fields into component state.  `scanResults` is never
restored (the record has no such field). -/
def restoreFromStore (init : DashboardState) (store : StoreContent) : DashboardState :=
  match loadScanState store with
  | none => init
  | some r =>
      { init with
        isScanning := r.isScanning
        scanCompleted := r.scanCompleted
        isScanExpanded := r.isScanExpanded
        scanFormData := r.scanFormData }

/-- Lifecycle phases named by the specification. -/
inductive Phase where
  | Idle : Phase
  | Configuring : Phase
  | Running : Phase
  | Completed : Phase
  | Failed : Phase
deriving DecidableEq, Repr

/-- Phase as rendered by Dashboard.tsx: the card shows the start button when
none of the three flags is set, the probe form when only `isScanExpanded` is
set, the spinner while `isScanning`, and the completion view when
`scanCompleted` (branches checked in that order in the JSX). -/
def phaseOf (s : DashboardState) : Phase :=
  if s.isScanning then Phase.Running
  else if s.scanCompleted then Phase.Completed
  else if s.isScanExpanded then Phase.Configuring
  else Phase.Idle

/-- Side effects the scan handlers perform, in program order: a persistence
write, a toast, or the single POST to the data-scan endpoint with the
`curl_commands` array and the bearer token. -/
inductive Effect where
  | save : PersistedScanState → Effect
  | toast : Toast → Effect
  | post : List String → String → Effect
deriving DecidableEq, Repr

/-- Save effects of a trace, in order. -/
def savesOf : List Effect → List PersistedScanState
  | [] => []
  | Effect.save r :: es => r :: savesOf es
  | _ :: es => savesOf es

/-- Toast effects of a trace, in order. -/
def toastsOf : List Effect → List Toast
  | [] => []
  | Effect.toast t :: es => t :: toastsOf es
  | _ :: es => toastsOf es

/-- POST effects of a trace (body, bearer token), in order. -/
def postsOf : List Effect → List (List String × String)
  | [] => []
  | Effect.post b tok :: es => (b, tok) :: postsOf es
  | _ :: es => postsOf es

/-- Replays the persistence writes of a trace against the store. -/
def applyEffects (store : StoreContent) : List Effect → StoreContent
  | [] => store
  | Effect.save r :: es => applyEffects (saveScanState store r) es
  | _ :: es => applyEffects store es

/-- Truthiness of the `authToken` localStorage read: `!token` holds for a
missing key (null) and for the empty string. -/
def tokenMissing : Option String → Bool
  | none => true
  | some t => t = ""

/-- Synchronous part of `handleScanFormSubmit` in Dashboard.tsx, line by
line: validate the three fields, flip to scanning and persist the Running
record, read the auth token, and either revert with a not-authenticated
toast or issue the single data-scan POST.  The step timers
(`setTimeout(... setScanStep ...)`) are pure UI animation and are not
modelled. -/
def handleScanFormSubmit (s : DashboardState) (authToken : Option String) :
    DashboardState × List Effect :=
  if jsTrim s.scanFormData.bearerTokenCurl = "" ∨ jsTrim s.scanFormData.scanTriggerCurl = ""
      ∨ jsTrim s.scanFormData.clientResultCurl = "" then
    (s, [Effect.toast
      { title := "Validation Error"
        description := "Please fill in all required fields"
        destructive := true }])
  else
    let s1 : DashboardState := { s with isScanning := true, scanStep := 1 }
    let runningSave : Effect := Effect.save
      { isScanning := true
        scanCompleted := false
        isScanExpanded := true
        scanFormData := s.scanFormData }
    if tokenMissing authToken then
      ({ s1 with isScanning := false, scanStep := 1 },
        [runningSave,
          Effect.toast
            { title := "Not authenticated"
              description := "Please log in to run the scan."
              destructive := true },
          Effect.save
            { isScanning := false
              scanCompleted := false
              isScanExpanded := true
              scanFormData := s.scanFormData }])
    else
      (s1,
        [runningSave,
          Effect.post
            [s.scanFormData.bearerTokenCurl, s.scanFormData.scanTriggerCurl,
              s.scanFormData.clientResultCurl]
            (authToken.getD "")])

/-- An HTTP response whose promise resolved: status code and body text.
`response.text()` resolves for any status, 2xx or not. -/
structure HttpResponse where
  status : Nat
  body : String
deriving DecidableEq, Repr

/-- Outcome of the data-scan fetch as the promise chain sees it: `success`
when the fetch and `response.text()` resolved (whatever the HTTP status),
`failure` when the chain rejected (network/transport failure). -/
inductive FetchResult where
  | success : HttpResponse → FetchResult
  | failure : FetchResult
deriving DecidableEq, Repr

/-- The `.then`/`.catch` continuation of the data-scan fetch in
`handleScanFormSubmit`.  The resolved branch never inspects the HTTP status:
it stores the body (or the fallback literal for an empty body), marks the
scan completed and persists; the rejected branch clears `isScanning`,
persists, and leaves `scanResults` untouched. -/
def scanFetchCallback (s : DashboardState) (res : FetchResult) :
    DashboardState × List Effect :=
  match res with
  | FetchResult.success r =>
      ({ s with
          scanResults := some (if r.body = "" then "Scan completed" else r.body)
          isScanning := false
          scanCompleted := true
          scanStep := 1 },
        [Effect.save
          { isScanning := false
            scanCompleted := true
            isScanExpanded := true
            scanFormData := s.scanFormData },
          Effect.toast
            { title := "Scan completed"
              description := "Cloud Scan completed successfully"
              destructive := false }])
  | FetchResult.failure =>
      ({ s with isScanning := false, scanStep := 1 },
        [Effect.save
          { isScanning := false
            scanCompleted := false
            isScanExpanded := true
            scanFormData := s.scanFormData },
          Effect.toast
            { title := "Scan failed"
              description := "Failed to run scan"
              destructive := true }])

/-- Keystroke handler `handleScanFormChange`: stores the updated form data
and immediately persists the current flags together with it. -/
def handleScanFormChange (s : DashboardState) (newFormData : ScanFormData) :
    DashboardState × List Effect :=
  ({ s with scanFormData := newFormData },
    [Effect.save
      { isScanning := s.isScanning
        scanCompleted := s.scanCompleted
        isScanExpanded := s.isScanExpanded
        scanFormData := newFormData }])

/-- The Re-Run Scan button's onClick in Dashboard.tsx: four state setters and
nothing else — no `setScanResults`, no `saveScanState`. -/
def handleReRunClick (s : DashboardState) : DashboardState :=
  { s with isScanExpanded := true, scanCompleted := false, isScanning := false, scanStep := 1 }

/-- `resetConfiguration`: clears all scan-related state and removes the
persisted record. -/
def resetConfiguration (_s : DashboardState) (store : StoreContent) :
    DashboardState × StoreContent :=
  (initialDashboardState, clearScanState store)

/-- Cloud vendors of UploadModal.tsx (the TS union minus `null`; absence is
`Option`). -/
inductive CloudVendor where
  | aws : CloudVendor
  | azure : CloudVendor
  | gcp : CloudVendor
deriving DecidableEq, Repr

/-- Datastore types of UploadModal.tsx (the TS union minus `null`). -/
inductive DatastoreType where
  | awsS3 : DatastoreType
  | awsRds : DatastoreType
  | azureBlob : DatastoreType
  | azureSql : DatastoreType
  | gcpStorage : DatastoreType
  | gcpBigquery : DatastoreType
deriving DecidableEq, Repr

/-- String identifier of a datastore type as used in the TS source. -/
def datastoreId : DatastoreType → String
  | DatastoreType.awsS3 => "aws-s3"
  | DatastoreType.awsRds => "aws-rds"
  | DatastoreType.azureBlob => "azure-blob"
  | DatastoreType.azureSql => "azure-sql"
  | DatastoreType.gcpStorage => "gcp-storage"
  | DatastoreType.gcpBigquery => "gcp-bigquery"

/-- A required credential field as listed in `getRequiredFields`. -/
structure CredentialFieldSpec where
  key : String
  label : String
  placeholder : String
deriving DecidableEq, Repr

/-- Icon component referenced by a datastore selection button. -/
inductive IconRef where
  | cloudIcon : IconRef
  | databaseIcon : IconRef
deriving DecidableEq, Repr

/-- A datastore selection entry as listed in `getDatastoresForVendor`. -/
structure DatastoreEntry where
  id : DatastoreType
  label : String
  icon : IconRef
  color : String
deriving DecidableEq, Repr

/-- Field schema registry `getRequiredFields` of UploadModal.tsx: the static
switch over the selected datastore; the `default` branch (here `none`)
returns the empty list. -/
def getRequiredFields : Option DatastoreType → List CredentialFieldSpec
  | some DatastoreType.awsS3 =>
      [{ key := "AWS_BUCKET_NAME", label := "AWS Bucket Name",
         placeholder := "Enter your S3 bucket name" }]
  | some DatastoreType.awsRds =>
      [{ key := "RDS_HOST", label := "RDS Host", placeholder := "Enter your RDS host" },
       { key := "RDS_PORT", label := "RDS Port", placeholder := "e.g., 3306 or 5432" },
       { key := "RDS_USERNAME", label := "RDS Username",
         placeholder := "Enter your RDS username" },
       { key := "RDS_PASSWORD", label := "RDS Password",
         placeholder := "Enter your RDS password" },
       { key := "RDS_DB_NAME", label := "RDS Database Name",
         placeholder := "Enter your database name" }]
  | some DatastoreType.azureBlob =>
      [{ key := "AZURE_STORAGE_ACCOUNT_NAME", label := "Azure Storage Account Name",
         placeholder := "Enter your Azure storage account name" },
       { key := "AZURE_STORAGE_ACCOUNT_KEY", label := "Azure Storage Account Key",
         placeholder := "Enter your Azure storage account key" },
       { key := "AZURE_CONTAINER_NAME", label := "Azure Container Name",
         placeholder := "Enter your Azure container name" }]
  | some DatastoreType.azureSql =>
      [{ key := "AZURE_SQL_SERVER", label := "Azure SQL Server",
         placeholder := "Enter your Azure SQL server name" },
       { key := "AZURE_SQL_DATABASE", label := "Azure SQL Database",
         placeholder := "Enter your database name" },
       { key := "AZURE_SQL_USERNAME", label := "Azure SQL Username",
         placeholder := "Enter your username" },
       { key := "AZURE_SQL_PASSWORD", label := "Azure SQL Password",
         placeholder := "Enter your password" }]
  | some DatastoreType.gcpStorage =>
      [{ key := "GCP_PROJECT_ID", label := "GCP Project ID",
         placeholder := "Enter your GCP project ID" },
       { key := "GCP_BUCKET_NAME", label := "GCP Bucket Name",
         placeholder := "Enter your Cloud Storage bucket name" },
       { key := "GCP_SERVICE_ACCOUNT_KEY", label := "GCP Service Account Key (JSON)",
         placeholder := "Paste your service account key JSON" }]
  | some DatastoreType.gcpBigquery =>
      [{ key := "GCP_PROJECT_ID", label := "GCP Project ID",
         placeholder := "Enter your GCP project ID" },
       { key := "GCP_DATASET_ID", label := "BigQuery Dataset ID",
         placeholder := "Enter your dataset ID" },
       { key := "GCP_TABLE_ID", label := "BigQuery Table ID",
         placeholder := "Enter your table ID" },
       { key := "GCP_SERVICE_ACCOUNT_KEY", label := "GCP Service Account Key (JSON)",
         placeholder := "Paste your service account key JSON" }]
  | none => []

/-- Registry `getDatastoresForVendor`: the datastore selection buttons shown
for each vendor; no vendor selected (the `default` branch) yields none. -/
def getDatastoresForVendor : Option CloudVendor → List DatastoreEntry
  | some CloudVendor.aws =>
      [{ id := DatastoreType.awsS3, label := "AWS S3", icon := IconRef.cloudIcon,
         color := "text-orange-500" },
       { id := DatastoreType.awsRds, label := "AWS RDS", icon := IconRef.databaseIcon,
         color := "text-orange-600" }]
  | some CloudVendor.azure =>
      [{ id := DatastoreType.azureBlob, label := "Azure Blob Storage",
         icon := IconRef.cloudIcon, color := "text-blue-500" },
       { id := DatastoreType.azureSql, label := "Azure SQL Database",
         icon := IconRef.databaseIcon, color := "text-blue-600" }]
  | some CloudVendor.gcp =>
      [{ id := DatastoreType.gcpStorage, label := "GCP Cloud Storage",
         icon := IconRef.cloudIcon, color := "text-yellow-500" },
       { id := DatastoreType.gcpBigquery, label := "GCP BigQuery",
         icon := IconRef.databaseIcon, color := "text-yellow-600" }]
  | none => []

/-- The `credentials` record of the modal: field key to entered value.
`credentials[k]` is `undefined` (`none`) for an absent key. -/
def Credentials : Type := List (String × String)

instance : DecidableEq Credentials := by
  unfold Credentials
  infer_instance

/-- Property access `credentials[k]` on the record. -/
def lookupCred (creds : Credentials) (k : String) : Option String :=
  (creds.find? (fun p => p.fst = k)).map Prod.snd

/-- In-memory state of the UploadModal component. -/
structure UploadModalState where
  cloudVendor : Option CloudVendor
  selectedDatastore : Option DatastoreType
  credentials : Credentials
deriving DecidableEq

/-- `isFormValid` of UploadModal.tsx:
`fields.every(field => credentials[field.key]?.trim())` — an absent key or a
value that trims to the empty string is falsy. -/
def isFormValid (s : UploadModalState) : Bool :=
  (getRequiredFields s.selectedDatastore).all fun f =>
    match lookupCred s.credentials f.key with
    | none => false
    | some v => !(jsTrim v = "")

/-- Enabled state of the Save and Upload button:
`disabled={!isFormValid() || isUploading}`. -/
def saveUploadButtonEnabled (s : UploadModalState) (isUploading : Bool) : Bool :=
  isFormValid s && !isUploading

/-- Outcome of the pre-store POST to `/store-s3-bucketname` as the try/catch
sees it: `ok` for a 2xx response; `fail msg` for a non-2xx response (msg is
the body text, possibly empty) or for a transport error (msg is the thrown
message). -/
inductive PreStoreOutcome where
  | ok : PreStoreOutcome
  | fail : String → PreStoreOutcome
deriving DecidableEq, Repr

/-- Outcome of the generic upload POST to `/upload-env-bucket`:
2xx with the parsed `file_url`, non-2xx with the parsed `detail` field
(possibly empty), or a transport/parse rejection carrying the thrown
message. -/
inductive UploadOutcome where
  | ok : String → UploadOutcome
  | httpError : String → UploadOutcome
  | networkError : String → UploadOutcome
deriving DecidableEq, Repr

/-- Side effects of the upload pipeline, in program order: the pre-store
POST (with its `bucket_name` body field), the generic upload POST (with
`provider` and `credentials` body fields), the `onUpload` callback invocation
notifying the caller, and toasts. -/
inductive UEffect where
  | preStorePost : String → UEffect
  | uploadPost : String → Credentials → UEffect
  | onUploadCall : String → Credentials → UEffect
  | utoast : Toast → UEffect
deriving DecidableEq

/-- The `onUpload` invocations of a trace (provider, credentials), in
order. -/
def onUploadCallsOf : List UEffect → List (String × Credentials)
  | [] => []
  | UEffect.onUploadCall p c :: es => (p, c) :: onUploadCallsOf es
  | _ :: es => onUploadCallsOf es

/-- The upload POSTs of a trace, in order. -/
def uploadPostsOf : List UEffect → List (String × Credentials)
  | [] => []
  | UEffect.uploadPost p c :: es => (p, c) :: uploadPostsOf es
  | _ :: es => uploadPostsOf es

/-- The pre-store POSTs of a trace, in order. -/
def preStorePostsOf : List UEffect → List String
  | [] => []
  | UEffect.preStorePost b :: es => b :: preStorePostsOf es
  | _ :: es => preStorePostsOf es

/-- The toasts of a trace, in order. -/
def utoastsOf : List UEffect → List Toast
  | [] => []
  | UEffect.utoast t :: es => t :: utoastsOf es
  | _ :: es => utoastsOf es

/-- `handleUpload` of UploadModal.tsx.  Guard: no datastore selected or an
upload already in flight returns immediately.  For the aws-s3 variant the
trimmed bucket name must be non-empty, the pre-store POST is issued with it,
and any pre-store failure aborts before `onUpload`; every surviving path ends
in exactly one `onUpload(selectedDatastore, credentials)` call.  The modal's
own state is never mutated by this handler. -/
def modalHandleUpload (s : UploadModalState) (isUploading : Bool)
    (pre : PreStoreOutcome) : UploadModalState × List UEffect :=
  if s.selectedDatastore.isNone || isUploading then (s, [])
  else
    match s.selectedDatastore with
    | none => (s, [])
    | some ds =>
        if ds = DatastoreType.awsS3 then
          match (lookupCred s.credentials "AWS_BUCKET_NAME").map jsTrim with
          | none =>
              (s, [UEffect.utoast
                { title := "Bucket name required"
                  description := "Please enter a valid AWS S3 bucket name before uploading."
                  destructive := true }])
          | some bucketName =>
              if bucketName = "" then
                (s, [UEffect.utoast
                  { title := "Bucket name required"
                    description := "Please enter a valid AWS S3 bucket name before uploading."
                    destructive := true }])
              else
                match pre with
                | PreStoreOutcome.ok =>
                    (s, [UEffect.preStorePost bucketName,
                      UEffect.utoast
                        { title := "Bucket name saved"
                          description := "AWS S3 bucket name stored successfully."
                          destructive := false },
                      UEffect.onUploadCall (datastoreId ds) s.credentials])
                | PreStoreOutcome.fail msg =>
                    (s, [UEffect.preStorePost bucketName,
                      UEffect.utoast
                        { title := "Error saving bucket name"
                          description :=
                            if msg = "" then "Failed to store AWS bucket name" else msg
                          destructive := true }])
        else
          (s, [UEffect.onUploadCall (datastoreId ds) s.credentials])

/-- Dashboard-side upload state touched by its `handleUpload`. -/
structure DashUploadState where
  isUploading : Bool
  uploadStatus : String
  uploadedFileUrl : String
  isUploadModalOpen : Bool
deriving DecidableEq

/-- `handleUpload` of Dashboard.tsx (the `onUpload` callback): POSTs the
provider and credentials to `/upload-env-bucket`; on 2xx stores the returned
file URL, closes the modal and toasts success; otherwise toasts the error;
`isUploading` is cleared in the `finally`. -/
def dashboardHandleUpload (d : DashUploadState) (provider : String)
    (creds : Credentials) (outcome : UploadOutcome) : DashUploadState × List UEffect :=
  let posted : UEffect := UEffect.uploadPost provider creds
  match outcome with
  | UploadOutcome.ok fileUrl =>
      ({ d with
          isUploading := false
          uploadStatus := "success"
          uploadedFileUrl := fileUrl
          isUploadModalOpen := false },
        [posted,
          UEffect.utoast
            { title := "Upload successful"
              description :=
                "File uploaded to " ++ jsToUpper provider ++ " successfully"
              destructive := false }])
  | UploadOutcome.httpError detail =>
      ({ d with isUploading := false, uploadStatus := "error" },
        [posted,
          UEffect.utoast
            { title := "Upload failed"
              description := if detail = "" then "Upload failed" else detail
              destructive := true }])
  | UploadOutcome.networkError msg =>
      ({ d with isUploading := false, uploadStatus := "error" },
        [posted,
          UEffect.utoast
            { title := "Upload failed"
              description := msg
              destructive := true }])

/-- One full submission from the Save and Upload button: the modal handler
runs, and when (and only when) it reaches its `onUpload` call, the
Dashboard's upload handler runs with the same provider and credentials. -/
def wizardSubmit (s : UploadModalState) (d : DashUploadState) (isUploading : Bool)
    (pre : PreStoreOutcome) (up : UploadOutcome) :
    UploadModalState × DashUploadState × List UEffect :=
  let m := modalHandleUpload s isUploading pre
  match onUploadCallsOf m.snd with
  | [] => (m.fst, d, m.snd)
  | (p, c) :: _ =>
      let r := dashboardHandleUpload d p c up
      (m.fst, r.fst, m.snd ++ r.snd)

/-- The Save and Upload button click as the DOM delivers it: the handler runs
only when the button is enabled. -/
def attemptSubmit (s : UploadModalState) (isUploading : Bool)
    (pre : PreStoreOutcome) : UploadModalState × List UEffect :=
  if saveUploadButtonEnabled s isUploading then modalHandleUpload s isUploading pre
  else (s, [])

/-- The four-field record the save calls write for a given in-memory state. -/
def recordOf (s : DashboardState) : PersistedScanState :=
  { isScanning := s.isScanning
    scanCompleted := s.scanCompleted
    isScanExpanded := s.isScanExpanded
    scanFormData := s.scanFormData }

/-- Concrete probe definitions used as test fixtures. -/
def sampleForm : ScanFormData :=
  { bearerTokenCurl := "curl A", scanTriggerCurl := "curl B", clientResultCurl := "curl C" }

/-- A Configuring-phase state with the three sample probes entered. -/
def configuringState : DashboardState :=
  { isScanning := false
    scanCompleted := false
    isScanExpanded := true
    scanStep := 1
    scanFormData := sampleForm
    scanResults := none }

/-- The Running-phase state reached from `configuringState`. -/
def runningState : DashboardState :=
  { configuringState with isScanning := true }

/-- Modal state of scenario A: vendor aws, datastore aws-s3, bucket name
entered. -/
def scenarioAState : UploadModalState :=
  { cloudVendor := some CloudVendor.aws
    selectedDatastore := some DatastoreType.awsS3
    credentials := [("AWS_BUCKET_NAME", "my-bucket")] }

/-- Dashboard upload state with the modal open and no upload in flight. -/
def dashIdle : DashUploadState :=
  { isUploading := false
    uploadStatus := "idle"
    uploadedFileUrl := ""
    isUploadModalOpen := true }

end NeoDspm

namespace NeoDspm

/-- Claim C1 as stated is false at this input: a scan-trigger POST that
completes with HTTP status 500 and body "Internal Server Error" does not move
the machine to Failed; the promise chain never inspects the status, so the
machine transitions to Completed, stores the error body as the result
summary, and persists a record with `scanCompleted = true`. -/
theorem c1_http500_lands_in_completed :
    phaseOf (scanFetchCallback runningState
        (FetchResult.success { status := 500, body := "Internal Server Error" })).fst
      = Phase.Completed
    ∧ phaseOf (scanFetchCallback runningState
        (FetchResult.success { status := 500, body := "Internal Server Error" })).fst
      ≠ Phase.Failed
    ∧ (scanFetchCallback runningState
        (FetchResult.success { status := 500, body := "Internal Server Error" })).fst.scanResults
      = some "Internal Server Error"
    ∧ (savesOf (scanFetchCallback runningState
        (FetchResult.success { status := 500, body := "Internal Server Error" })).snd).map
        PersistedScanState.scanCompleted = [true] := by
  refine ⟨rfl, by decide, rfl, rfl⟩

/-- Claim C1, amended: the scan callback distinguishes only promise rejection
from resolution, not HTTP status.  On a transport failure the machine goes
directly back to Configuring (there is no distinct Failed phase): the probe
strings are kept, `scanResults` is left unchanged, the persisted record shows
the scan neither running nor completed with the original probes, and a
destructive toast is emitted.  On any resolved response — HTTP success or
error status alike — the machine transitions to Completed with the response
body (or the fallback literal "Scan completed" for an empty body) as the
result summary, and persists accordingly. -/
theorem c1_fetch_resolution_theorem (s : DashboardState) (_hrun : s.isScanning = true)
    (hnc : s.scanCompleted = false) (hexp : s.isScanExpanded = true) :
    (phaseOf (scanFetchCallback s FetchResult.failure).fst = Phase.Configuring
      ∧ (scanFetchCallback s FetchResult.failure).fst.scanFormData = s.scanFormData
      ∧ (scanFetchCallback s FetchResult.failure).fst.scanResults = s.scanResults
      ∧ savesOf (scanFetchCallback s FetchResult.failure).snd =
          [{ isScanning := false, scanCompleted := false, isScanExpanded := true,
             scanFormData := s.scanFormData }]
      ∧ (toastsOf (scanFetchCallback s FetchResult.failure).snd).map Toast.destructive
          = [true])
    ∧ ∀ r : HttpResponse,
        phaseOf (scanFetchCallback s (FetchResult.success r)).fst = Phase.Completed
        ∧ (scanFetchCallback s (FetchResult.success r)).fst.scanResults =
            some (if r.body = "" then "Scan completed" else r.body)
        ∧ (scanFetchCallback s (FetchResult.success r)).fst.scanFormData = s.scanFormData
        ∧ savesOf (scanFetchCallback s (FetchResult.success r)).snd =
            [{ isScanning := false, scanCompleted := true, isScanExpanded := true,
               scanFormData := s.scanFormData }] := by
  constructor
  · simp [scanFetchCallback, phaseOf, savesOf, toastsOf, hnc, hexp]
  · intro r
    simp [scanFetchCallback, phaseOf, savesOf]

/-- Claim C1 amended theorem, instantiated at the concrete Running fixture. -/
theorem c1_fetch_resolution_witness :
    phaseOf (scanFetchCallback runningState FetchResult.failure).fst = Phase.Configuring ∧
    phaseOf (scanFetchCallback runningState
      (FetchResult.success { status := 200, body := "ok" })).fst = Phase.Completed :=
  ⟨(c1_fetch_resolution_theorem runningState rfl rfl rfl).1.1,
    ((c1_fetch_resolution_theorem runningState rfl rfl rfl).2
      { status := 200, body := "ok" }).1⟩

/-- Claim C2 as stated is false at this input: with the three sample probes
filled and no bearer credential, clicking Run Scan does not keep the
persisted record in Configuring — the handler first persists a record with
`isScanning = true` (Running) and only then performs the credential check and
reverts, so the persisted trace is Running followed by Configuring.  No POST
is issued. -/
theorem c2_transient_running_persisted :
    (savesOf (handleScanFormSubmit configuringState none).snd).map
        PersistedScanState.isScanning = [true, false]
    ∧ postsOf (handleScanFormSubmit configuringState none).snd = [] := by
  refine ⟨rfl, rfl⟩

/-- Claim C2, amended: with all three probe fields non-empty after trimming,
a Run Scan click without a bearer credential issues no scan POST, emits the
authentication-error toast, and ends — in memory and in the store — in
Configuring with the probes unchanged, though the handler transiently
persists a Running record before the credential check; with a credential
present, the handler persists the Running record with the definition and then
issues exactly one POST bundling the three probes and the token. -/
theorem c2_run_scan_auth_gate (s : DashboardState) (token : Option String)
    (h1 : jsTrim s.scanFormData.bearerTokenCurl ≠ "")
    (h2 : jsTrim s.scanFormData.scanTriggerCurl ≠ "")
    (h3 : jsTrim s.scanFormData.clientResultCurl ≠ "")
    (hnc : s.scanCompleted = false) (hexp : s.isScanExpanded = true) :
    (tokenMissing token = true →
      postsOf (handleScanFormSubmit s token).snd = []
      ∧ (toastsOf (handleScanFormSubmit s token).snd).map Toast.title
          = ["Not authenticated"]
      ∧ phaseOf (handleScanFormSubmit s token).fst = Phase.Configuring
      ∧ (handleScanFormSubmit s token).fst.scanFormData = s.scanFormData
      ∧ (∀ store, applyEffects store (handleScanFormSubmit s token).snd =
          StoreContent.valid
            { isScanning := false, scanCompleted := false, isScanExpanded := true,
              scanFormData := s.scanFormData })
      ∧ (savesOf (handleScanFormSubmit s token).snd).map PersistedScanState.isScanning
          = [true, false])
    ∧ (tokenMissing token = false →
      phaseOf (handleScanFormSubmit s token).fst = Phase.Running
      ∧ (handleScanFormSubmit s token).fst.scanFormData = s.scanFormData
      ∧ postsOf (handleScanFormSubmit s token).snd =
          [([s.scanFormData.bearerTokenCurl, s.scanFormData.scanTriggerCurl,
             s.scanFormData.clientResultCurl], token.getD "")]
      ∧ savesOf (handleScanFormSubmit s token).snd =
          [{ isScanning := true, scanCompleted := false, isScanExpanded := true,
             scanFormData := s.scanFormData }]) := by
  constructor
  · intro htok
    simp [handleScanFormSubmit, h1, h2, h3, htok, phaseOf, postsOf, toastsOf, savesOf,
      applyEffects, saveScanState, hnc, hexp]
  · intro htok
    simp [handleScanFormSubmit, h1, h2, h3, htok, phaseOf, postsOf, savesOf]

/-- Claim C2 amended theorem, instantiated at the Configuring fixture with no
token and with the token "tok". -/
theorem c2_run_scan_auth_gate_witness :
    postsOf (handleScanFormSubmit configuringState none).snd = [] ∧
    postsOf (handleScanFormSubmit configuringState (some "tok")).snd =
      [(["curl A", "curl B", "curl C"], "tok")] :=
  ⟨((c2_run_scan_auth_gate configuringState none (by decide) (by decide) (by decide)
      rfl rfl).1 rfl).1,
    by
      have h := ((c2_run_scan_auth_gate configuringState (some "tok") (by decide)
        (by decide) (by decide) rfl rfl).2 (by decide)).2.2.1
      simpa [configuringState, sampleForm] using h⟩

/-- Claim C3 as stated is false at this input: after a successful scan whose
body is "Found: 3 emails", the in-memory state holds that summary, but the
record the completion handler persists has no `resultSummary` field and the
restore effect never touches `scanResults`, so a save/load/restore round trip
comes back with `scanResults = none` — the round trip is not lossless for all
fields of ScanState. -/
theorem c3_result_summary_lost_on_roundtrip :
    (scanFetchCallback runningState
        (FetchResult.success { status := 200, body := "Found: 3 emails" })).fst.scanResults
      = some "Found: 3 emails"
    ∧ (restoreFromStore initialDashboardState
        (applyEffects StoreContent.empty
          (scanFetchCallback runningState
            (FetchResult.success { status := 200, body := "Found: 3 emails" })).snd)).scanResults
      = none
    ∧ (restoreFromStore initialDashboardState
        (applyEffects StoreContent.empty
          (scanFetchCallback runningState
            (FetchResult.success { status := 200, body := "Found: 3 emails" })).snd)).scanResults
      ≠ (scanFetchCallback runningState
          (FetchResult.success { status := 200, body := "Found: 3 emails" })).fst.scanResults := by
  refine ⟨rfl, rfl, by decide⟩

/-- Claim C3, amended: the persistence round trip is lossless for exactly the
four persisted fields — the three flags and the ScanDefinition — so a reload
while phase is Running restores phase Running with a field-for-field equal
definition; `resultSummary` is not part of the persisted record and always
comes back as null after a restore. -/
theorem c3_roundtrip_theorem (store : StoreContent) (s : DashboardState)
    (hrun : s.isScanning = true) :
    loadScanState (saveScanState store (recordOf s)) = some (recordOf s)
    ∧ phaseOf (restoreFromStore initialDashboardState
        (saveScanState store (recordOf s))) = Phase.Running
    ∧ (restoreFromStore initialDashboardState
        (saveScanState store (recordOf s))).scanFormData = s.scanFormData
    ∧ (restoreFromStore initialDashboardState
        (saveScanState store (recordOf s))).scanResults = none := by
  refine ⟨rfl, ?_, rfl, rfl⟩
  simp [restoreFromStore, loadScanState, saveScanState, phaseOf, recordOf, hrun]

/-- Claim C3 amended theorem, instantiated at the Running fixture. -/
theorem c3_roundtrip_witness :
    phaseOf (restoreFromStore initialDashboardState
      (saveScanState StoreContent.empty (recordOf runningState))) = Phase.Running :=
  (c3_roundtrip_theorem StoreContent.empty runningState rfl).2.1

/-- Claim C4 as stated is false at this input: from the Completed state whose
summary is "Found: 3 emails", clicking Re-Run Scan moves the machine to
Configuring but leaves `scanResults` holding the old summary instead of
clearing it to null, and performs no save, so the persisted record still
shows `scanCompleted = true` while the in-memory state shows the phase as
Configuring. -/
theorem c4_rerun_keeps_summary_and_skips_save :
    phaseOf (handleReRunClick (scanFetchCallback runningState
        (FetchResult.success { status := 200, body := "Found: 3 emails" })).fst)
      = Phase.Configuring
    ∧ (handleReRunClick (scanFetchCallback runningState
        (FetchResult.success { status := 200, body := "Found: 3 emails" })).fst).scanResults
      = some "Found: 3 emails"
    ∧ (loadScanState (applyEffects StoreContent.empty
        (scanFetchCallback runningState
          (FetchResult.success { status := 200, body := "Found: 3 emails" })).snd)).map
        PersistedScanState.scanCompleted = some true
    ∧ (handleReRunClick (scanFetchCallback runningState
        (FetchResult.success { status := 200, body := "Found: 3 emails" })).fst).scanCompleted
      = false := by
  refine ⟨rfl, rfl, rfl, rfl⟩

/-- Claim C4, amended: from every Completed state, Re-Run Scan transitions to
Configuring with the ScanDefinition unchanged, but it leaves `resultSummary`
untouched rather than clearing it, and it performs no persistence write (the
click handler runs only state setters), so the persisted record still
reflects Completed and disagrees with the in-memory state until the next
saving mutation. -/
theorem c4_rerun_theorem (s : DashboardState) (_hc : s.scanCompleted = true)
    (_hns : s.isScanning = false) :
    phaseOf (handleReRunClick s) = Phase.Configuring
    ∧ (handleReRunClick s).scanFormData = s.scanFormData
    ∧ (handleReRunClick s).scanResults = s.scanResults
    ∧ ∀ r : PersistedScanState, r.scanCompleted = true →
        recordOf (handleReRunClick s) ≠ r := by
  refine ⟨?_, rfl, rfl, ?_⟩
  · simp [handleReRunClick, phaseOf]
  · intro r hr heq
    have : (recordOf (handleReRunClick s)).scanCompleted = r.scanCompleted := by
      rw [heq]
    simp [recordOf, handleReRunClick, hr] at this

/-- Claim C4 amended theorem, instantiated at the concrete Completed
fixture. -/
theorem c4_rerun_witness :
    phaseOf (handleReRunClick (scanFetchCallback runningState
      (FetchResult.success { status := 200, body := "ok" })).fst) = Phase.Configuring :=
  (c4_rerun_theorem
    (scanFetchCallback runningState (FetchResult.success { status := 200, body := "ok" })).fst
    rfl rfl).1

/-- Claim C5, confirmed: for vendor aws, datastore aws-s3 and bucket name
"my-bucket", the submission's effect trace is exactly the pre-store POST with
bucket_name "my-bucket", the saved-toast, the onUpload notification with
("aws-s3", the entered credential bundle), the generic upload POST, and the
success toast — in that order, so the pre-store call precedes the upload; the
wizard closes (`isUploadModalOpen = false`) on upload success; when the
pre-store call fails no upload POST is issued and the dashboard state is
untouched; and when the upload itself fails the wizard stays open. -/
theorem c5_scenario_a :
    (wizardSubmit scenarioAState dashIdle false PreStoreOutcome.ok
        (UploadOutcome.ok "http://files/env")).2.2 =
      [UEffect.preStorePost "my-bucket",
        UEffect.utoast
          { title := "Bucket name saved",
            description := "AWS S3 bucket name stored successfully.", destructive := false },
        UEffect.onUploadCall "aws-s3" [("AWS_BUCKET_NAME", "my-bucket")],
        UEffect.uploadPost "aws-s3" [("AWS_BUCKET_NAME", "my-bucket")],
        UEffect.utoast
          { title := "Upload successful",
            description := "File uploaded to AWS-S3 successfully", destructive := false }]
    ∧ (wizardSubmit scenarioAState dashIdle false PreStoreOutcome.ok
        (UploadOutcome.ok "http://files/env")).2.1.isUploadModalOpen = false
    ∧ uploadPostsOf (wizardSubmit scenarioAState dashIdle false
        (PreStoreOutcome.fail "boom") (UploadOutcome.ok "http://files/env")).2.2 = []
    ∧ (wizardSubmit scenarioAState dashIdle false (PreStoreOutcome.fail "boom")
        (UploadOutcome.ok "http://files/env")).2.1 = dashIdle
    ∧ (wizardSubmit scenarioAState dashIdle false PreStoreOutcome.ok
        (UploadOutcome.httpError "duplicate")).2.1.isUploadModalOpen = true := by
  refine ⟨rfl, rfl, rfl, rfl, rfl⟩

/-- Claim C6, confirmed: whenever the aws-s3 variant is submitted with a
bucket name whose trimmed value is non-empty and the pre-store call fails —
non-2xx or transport error, both collapse to `PreStoreOutcome.fail` — the
modal handler returns with its state unchanged (the wizard stays in the
field-entry step with every entered credential retained), issues no onUpload
call and no upload POST, and emits exactly one destructive toast after the
pre-store POST. -/
theorem c6_prestore_failure_aborts (vendor : Option CloudVendor) (creds : Credentials)
    (msg bv : String) (hb : lookupCred creds "AWS_BUCKET_NAME" = some bv)
    (hbt : jsTrim bv ≠ "") :
    (modalHandleUpload
        { cloudVendor := vendor, selectedDatastore := some DatastoreType.awsS3,
          credentials := creds } false (PreStoreOutcome.fail msg)).fst =
      { cloudVendor := vendor, selectedDatastore := some DatastoreType.awsS3,
        credentials := creds }
    ∧ onUploadCallsOf (modalHandleUpload
        { cloudVendor := vendor, selectedDatastore := some DatastoreType.awsS3,
          credentials := creds } false (PreStoreOutcome.fail msg)).snd = []
    ∧ uploadPostsOf (modalHandleUpload
        { cloudVendor := vendor, selectedDatastore := some DatastoreType.awsS3,
          credentials := creds } false (PreStoreOutcome.fail msg)).snd = []
    ∧ preStorePostsOf (modalHandleUpload
        { cloudVendor := vendor, selectedDatastore := some DatastoreType.awsS3,
          credentials := creds } false (PreStoreOutcome.fail msg)).snd = [jsTrim bv]
    ∧ (utoastsOf (modalHandleUpload
        { cloudVendor := vendor, selectedDatastore := some DatastoreType.awsS3,
          credentials := creds } false (PreStoreOutcome.fail msg)).snd).map
        Toast.destructive = [true] := by
  simp [modalHandleUpload, hb, hbt, onUploadCallsOf, uploadPostsOf, preStorePostsOf,
    utoastsOf]

/-- Claim C6 theorem, instantiated at scenario A's credentials with a failing
pre-store call. -/
theorem c6_prestore_failure_witness :
    uploadPostsOf (modalHandleUpload
      { cloudVendor := some CloudVendor.aws, selectedDatastore := some DatastoreType.awsS3,
        credentials := [("AWS_BUCKET_NAME", "my-bucket")] } false
      (PreStoreOutcome.fail "boom")).snd = [] :=
  (c6_prestore_failure_aborts (some CloudVendor.aws) [("AWS_BUCKET_NAME", "my-bucket")]
    "boom" "my-bucket" rfl (by decide)).2.2.1

/-- Claim C7, confirmed: in the field-entry step (a datastore is selected and
no upload is in flight — the Submitting state is a separate wizard state),
the Save and Upload button is enabled exactly when every key in the active
field-spec list has a value that is non-empty after trimming; and while that
predicate is false the button is disabled, so a click attempt runs no handler
at all — no network call and no state change. -/
theorem c7_submit_guard (s : UploadModalState) (_hstep : s.selectedDatastore ≠ none) :
    (saveUploadButtonEnabled s false = true ↔
      ∀ f ∈ getRequiredFields s.selectedDatastore,
        ∃ v, lookupCred s.credentials f.key = some v ∧ jsTrim v ≠ "")
    ∧ (saveUploadButtonEnabled s false = false →
        ∀ pre : PreStoreOutcome, attemptSubmit s false pre = (s, [])) := by
  constructor
  · unfold saveUploadButtonEnabled isFormValid
    simp only [Bool.not_false, Bool.and_true, List.all_eq_true]
    constructor
    · intro h f hf
      have hx := h f hf
      cases hl : lookupCred s.credentials f.key with
      | none => rw [hl] at hx; simp at hx
      | some v =>
          rw [hl] at hx
          simp only [Bool.not_eq_true', decide_eq_false_iff_not] at hx
          exact ⟨v, rfl, hx⟩
    · intro h f hf
      obtain ⟨v, hv, hvt⟩ := h f hf
      rw [hv]
      simp [hvt]
  · intro hdis pre
    simp [attemptSubmit, hdis]

/-- Claim C7 theorem, instantiated: with the required aws-s3 field left
blank, the button is disabled and the click attempt is a no-op. -/
theorem c7_submit_guard_witness :
    attemptSubmit
      { cloudVendor := some CloudVendor.aws, selectedDatastore := some DatastoreType.awsS3,
        credentials := [("AWS_BUCKET_NAME", "   ")] } false PreStoreOutcome.ok =
      ({ cloudVendor := some CloudVendor.aws, selectedDatastore := some DatastoreType.awsS3,
          credentials := [("AWS_BUCKET_NAME", "   ")] }, []) :=
  (c7_submit_guard
    { cloudVendor := some CloudVendor.aws, selectedDatastore := some DatastoreType.awsS3,
      credentials := [("AWS_BUCKET_NAME", "   ")] } (by decide)).2 (by decide)
    PreStoreOutcome.ok

/-- Claim C8, confirmed: the field-schema lookup is a pure total Lean
function (deterministic by construction, no mutation, no I/O); every
(vendor, datastore) pair reachable through the wizard's selection buttons
yields a non-empty field list, and the unknown key (no datastore selected,
the switch's default branch) yields the empty list, as does the vendor
lookup's own default branch. -/
theorem c8_registry_total :
    (∀ v : CloudVendor, ∀ e ∈ getDatastoresForVendor (some v),
        getRequiredFields (some e.id) ≠ [])
    ∧ getRequiredFields none = []
    ∧ getDatastoresForVendor none = [] := by
  refine ⟨?_, rfl, rfl⟩
  intro v e he
  cases v <;> simp [getDatastoresForVendor] at he <;>
    rcases he with rfl | rfl <;> simp [getRequiredFields]

/-- Claim C8 theorem, instantiated at the aws vendor's first selection
button. -/
theorem c8_registry_total_witness :
    getRequiredFields (some DatastoreType.awsS3) ≠ [] :=
  c8_registry_total.1 CloudVendor.aws
    { id := DatastoreType.awsS3, label := "AWS S3", icon := IconRef.cloudIcon,
      color := "text-orange-500" } (by decide)

/-- Claim C9, confirmed: after `clear()` every store content loads as `none`;
a corrupt (unparseable) record also loads as `none` — the try/catch swallows
the parse error instead of propagating it — and the mount-time restore then
leaves the component at its fresh initial state, whose phase is Idle. -/
theorem c9_clear_and_corrupt :
    (∀ store : StoreContent, loadScanState (clearScanState store) = none)
    ∧ loadScanState StoreContent.corrupt = none
    ∧ restoreFromStore initialDashboardState StoreContent.corrupt = initialDashboardState
    ∧ phaseOf initialDashboardState = Phase.Idle :=
  ⟨fun _ => rfl, rfl, rfl, rfl⟩

/-- Claim C9 theorem, instantiated at a populated store. -/
theorem c9_clear_and_corrupt_witness :
    loadScanState (clearScanState (StoreContent.valid (recordOf runningState))) = none :=
  c9_clear_and_corrupt.1 (StoreContent.valid (recordOf runningState))

/-- Claim C10, confirmed: when no datastore is selected or an upload is
already in flight, the modal's upload handler returns immediately with the
state unchanged and an empty effect trace — no pre-store POST, no onUpload
call, no toast — and while an upload is in flight the Save and Upload button
is disabled, so repeated clicks cannot duplicate the pre-store or upload
requests. -/
theorem c10_upload_guard (s : UploadModalState) (isUploading : Bool)
    (pre : PreStoreOutcome) (h : s.selectedDatastore = none ∨ isUploading = true) :
    modalHandleUpload s isUploading pre = (s, [])
    ∧ saveUploadButtonEnabled s true = false := by
  refine ⟨?_, by simp [saveUploadButtonEnabled]⟩
  rcases h with h | h
  · simp [modalHandleUpload, h]
  · simp [modalHandleUpload, h]

/-- Claim C10 theorem, instantiated at an in-flight upload on scenario A's
state. -/
theorem c10_upload_guard_witness :
    modalHandleUpload scenarioAState true PreStoreOutcome.ok = (scenarioAState, []) :=
  (c10_upload_guard scenarioAState true PreStoreOutcome.ok (Or.inr rfl)).1

end NeoDspm
